import Mathlib

/-!
Shallow embedding of the karrick/orange range-query client (Go).

The repository ships two revisions of `client.go` side by side; we embed
both where the claims reference both: `queryServerV1` embeds the first
revision's `Client.queryServer`, and `queryV2` embeds the second
revision's `Client.query`.  The retry goroutine loop shared by
`Client.query` (rev 1) and `Client.QueryCallback` (rev 2) is embedded by
`clientRetryLoop`, and the caller-side `select` on the context-done
channel versus the result channel is embedded by `querySelect` using the
Go specification's select semantics (uniform choice among ready cases).

Go byte slices are modelled as `String` (response bodies, status text)
or `List Char` (the Response buffer in `response.go`); stream reads are
modelled as returning the response's byte content (I/O read failures are
outside the claims considered here).  Machine-integer cursors stay far
below 2^32 in every reachable state, so `Nat` arithmetic with explicit
`% l` is exact.
-/

namespace Orange

/-- HTTP methods used by the client: only GET and PUT appear in the code. -/
inductive Method
  | get
  | put
deriving DecidableEq, Repr

/-- Errors produced by the client, one constructor per `error` value the
Go code constructs or propagates.  `ErrRangeException` and
`ErrStatusNotOK` (from `error.go`) each carry a `Body` field that no
constructor in `client.go` populates, so the embedded constructors carry
the zero value `""` there, mirrored as an explicit field.  `transport`
stands for an error returned by `Doer.Do`; its three flags record
whether the value implements a true `Temporary()`, a true `Timeout()`,
and whether it is a `url.Error` wrapping a `net.OpError` wrapping a
`net.DNSError` (the structure `makeRetryCallback` type-asserts on). -/
inductive GoError
  | rangeException (bodyField : String) (message : String)
  | statusNotOK (bodyField : String) (status : String) (statusCode : Nat)
  | transport (msg : String) (temporary : Bool) (timeoutFlag : Bool) (dnsChain : Bool)
  | requestConstruction (msg : String)
  | contextCanceled
deriving DecidableEq, Repr

/-- `Error()` methods from `error.go`, plus the strings of the stdlib
errors the client forwards unchanged. -/
def goErrorString : GoError → String
  | .rangeException _ m => "RangeException: " ++ m
  | .statusNotOK _ status _ => status
  | .transport m _ _ _ => m
  | .requestConstruction m => m
  | .contextCanceled => "context canceled"

/-- `isTemporary` from `error.go`: the type assertion to the
`temporary` interface succeeds only for transport-layer errors; the
client's own error types define no `Temporary` method. -/
def isTemporary : GoError → Bool
  | .transport _ t _ _ => t
  | _ => false

/-- `isTimeout` from `error.go`: the type assertion to the `timeout`
interface succeeds only for transport-layer errors. -/
def isTimeout : GoError → Bool
  | .transport _ _ t _ => t
  | _ => false

/-- The nested type assertions in `makeRetryCallback`:
`err.(*url.Error)`, then `.Err.(*net.OpError)`, then
`.Err.(*net.DNSError)`.  Only transport errors can have that shape. -/
def isDNSChain : GoError → Bool
  | .transport _ _ _ d => d
  | _ => false

/-- `makeRetryCallback` from `error.go`: the default retry predicate,
closed over `count = len(config.Servers)`. -/
def makeRetryCallback (count : Nat) (err : GoError) : Bool :=
  if isTemporary err || isTimeout err then true
  else if isDNSChain err then decide (count > 1)
  else false

end Orange

namespace Orange

/-- `roundRobinStrings` from `roundRobin.go`: the list of server
addresses and the atomic cursor `i` (a `uint32` in Go; every reachable
cursor value is `< values.length`, far below `2^32`, so `Nat` is
exact). -/
structure roundRobinStrings where
  values : List String
  i : Nat
deriving Repr

/-- `newRoundRobinStrings` from `roundRobin.go`: fails on an empty
list, otherwise copies the values and starts the cursor at zero. -/
def newRoundRobinStrings (someStrings : List String) :
    Except String roundRobinStrings :=
  if someStrings.length = 0 then
    .error "cannot create a round robin strings structure without at least one string"
  else
    .ok { values := someStrings, i := 0 }

/-- `roundRobinStrings.Next` from `roundRobin.go` in the uncontended
case (the first compare-and-swap succeeds): single-element lists take
the fast path and leave the cursor alone; otherwise the value at the
loaded cursor is returned and the cursor advances to `(i + 1) % l`. -/
def rrNext (rr : roundRobinStrings) : String × roundRobinStrings :=
  let l := rr.values.length
  if l = 1 then (rr.values.getD 0 "", rr)
  else
    let i := rr.i
    let ni := (i + 1) % l
    (rr.values.getD i "", { rr with i := ni })

/-- Result of the `k`-th (0-based) uncontended call to `Next` starting
from state `rr`. -/
def rrNth (rr : roundRobinStrings) : Nat → String
  | 0 => (rrNext rr).1
  | k + 1 => rrNth (rrNext rr).2 k

/-- The other HTTP method: the assignments `method = http.MethodPut` /
`method = http.MethodGet` used on request-construction failure. -/
def Method.flip : Method → Method
  | .get => .put
  | .put => .get

/-- The fields of an `http.Response` the client inspects: the numeric
status code, the `Status` text, the value of the `RangeException`
header (`""` when absent, as `Header.Get` returns), and the body
bytes. -/
structure HttpResponse where
  statusCode : Nat
  status : String
  rangeException : String
  body : String
deriving DecidableEq, Repr

/-- Result of one `Doer.Do` call: either a transport-level error or a
delivered response. -/
inductive DoResult
  | failure (e : GoError)
  | response (r : HttpResponse)
deriving DecidableEq, Repr

/-- Oracle environment for one logical attempt: what the context and
the transport do at each loop iteration.  `cancelledAt i` is the state
of `ctx.Done()` observed during iteration `i`; `newRequestFails i m` is
the error `http.NewRequest` returns there (`none` = success);
`transport i m` is what `httpClient.Do` returns for the request of
method `m` issued during iteration `i`. -/
structure AttemptEnv where
  cancelledAt : Nat → Bool
  newRequestFails : Nat → Method → Option GoError
  transport : Nat → Method → DoResult

/-- `defaultQueryLengthThreshold` from `client.go` (both revisions use
the value 4096). -/
def defaultQueryLengthThreshold : Nat := 4096

/-- Initial method selection shared by both revisions: PUT when the GET
URI would exceed the threshold, GET otherwise. -/
def initialMethod (uriLen : Nat) : Method :=
  if uriLen > defaultQueryLengthThreshold then .put else .get

/-- Outcome of one iteration of the `for i := 0; i < 2; i++` loop in
revision 1's `Client.queryServer`: either the function returned, or the
loop continues with an updated method and saved error.  `req` records
the physical request issued during the iteration, if any. -/
inductive V1Step
  | done (r : Except GoError String) (req : Option Method)
  | next (method : Method) (err2 : Option GoError) (req : Option Method)

/-- One iteration of revision 1's `Client.queryServer` loop, translated
clause by clause: early exit when the context is already done; on
request-construction failure save the error only when `err2` is still
nil, flip the method and continue without a network call; on transport
failure return it; on 200 classify RangeException versus success; on
any other status flip the method for 414/405 and overwrite `err2` with
an `ErrStatusNotOK` carrying the `Status` text and code (the `Body`
field of `ErrStatusNotOK` is never populated, hence `""`). -/
def v1Iter (cancelled : Bool) (newReq : Method → Option GoError)
    (doer : Method → DoResult) (method : Method) (err2 : Option GoError) : V1Step :=
  if cancelled then .done (.error .contextCanceled) none
  else
    match newReq method with
    | some e => .next method.flip (some (err2.getD e)) none
    | none =>
      match doer method with
      | .failure e => .done (.error e) (some method)
      | .response r =>
        if r.statusCode = 200 then
          if r.rangeException ≠ "" then
            .done (.error (.rangeException "" r.rangeException)) (some method)
          else .done (.ok r.body) (some method)
        else
          let m2 : Method :=
            if r.statusCode = 414 then .put
            else if r.statusCode = 405 then .get
            else method
          .next m2 (some (.statusNotOK "" r.status r.statusCode)) (some method)

/-- Revision 1's `Client.queryServer`: two loop iterations at most;
when the loop falls through, `nil, err2` is returned (an `err2` of nil
would mean a nil-error success with nil buffer, which no reachable
execution produces).  The second component lists the physical requests
issued, in order. -/
def queryServerV1 (env : AttemptEnv) (method0 : Method) :
    Except GoError String × List Method :=
  match v1Iter (env.cancelledAt 0) (env.newRequestFails 0) (env.transport 0) method0 none with
  | .done r req => (r, req.toList)
  | .next m1 e1 req0 =>
    match v1Iter (env.cancelledAt 1) (env.newRequestFails 1) (env.transport 1) m1 e1 with
    | .done r req1 => (r, req0.toList ++ req1.toList)
    | .next _ e2 req1 => (e2.elim (.ok "") .error, req0.toList ++ req1.toList)

/-- Observable outcome of revision 2's `Client.query`: the returned
error value (`none` means a nil error), the body handed to the caller's
callback when it was invoked, and the physical requests issued. -/
structure V2Out where
  returned : Option GoError
  callbackBody : Option String
  requests : List Method
deriving DecidableEq, Repr

/-- The unbounded `for` loop of revision 2's `Client.query`, translated
clause by clause with fuel (every execution from the initial state
finishes within 3 iterations).  Per iteration: an already-tried method
returns `prevErr` as is (possibly nil); construction failure flips the
method, saves the error and continues; a transport failure is returned
immediately; a 200 response classifies RangeException versus invoking
the callback; 414/405 return `prevErr` when the other method was
already tried, else switch to it, discard the body, check the context,
and set `prevErr` to the (shadowed, nil) `Do` error; any other status
returns `ErrStatusNotOK` whose `Status` field holds the body text when
the drained body is non-empty and the response `Status` text
otherwise. -/
def v2Loop (env : AttemptEnv) (callback : String → Option GoError) :
    Nat → Nat → Method → Bool → Bool → Option GoError → List Method → Option V2Out
  | 0, _, _, _, _, _, _ => none
  | fuel + 1, iter, m, wasGetTried, wasPutTried, prevErr, log =>
    let tried : Bool := match m with | .get => wasGetTried | .put => wasPutTried
    if tried then some { returned := prevErr, callbackBody := none, requests := log }
    else
      let wg := wasGetTried || decide (m = .get)
      let wp := wasPutTried || decide (m = .put)
      match env.newRequestFails iter m with
      | some e => v2Loop env callback fuel (iter + 1) m.flip wg wp (some e) log
      | none =>
        match env.transport iter m with
        | .failure e =>
          some { returned := some e, callbackBody := none, requests := log ++ [m] }
        | .response r =>
          if r.statusCode = 200 then
            if r.rangeException ≠ "" then
              some { returned := some (.rangeException "" r.rangeException),
                     callbackBody := none, requests := log ++ [m] }
            else
              some { returned := callback r.body, callbackBody := some r.body,
                     requests := log ++ [m] }
          else if r.statusCode = 414 then
            if wp then
              some { returned := prevErr, callbackBody := none, requests := log ++ [m] }
            else if env.cancelledAt iter then
              some { returned := some .contextCanceled, callbackBody := none,
                     requests := log ++ [m] }
            else v2Loop env callback fuel (iter + 1) .put wg wp none (log ++ [m])
          else if r.statusCode = 405 then
            if wg then
              some { returned := prevErr, callbackBody := none, requests := log ++ [m] }
            else if env.cancelledAt iter then
              some { returned := some .contextCanceled, callbackBody := none,
                     requests := log ++ [m] }
            else v2Loop env callback fuel (iter + 1) .get wg wp none (log ++ [m])
          else
            if r.body ≠ "" then
              some { returned := some (.statusNotOK "" r.body r.statusCode),
                     callbackBody := none, requests := log ++ [m] }
            else
              some { returned := some (.statusNotOK "" r.status r.statusCode),
                     callbackBody := none, requests := log ++ [m] }

/-- Revision 2's `Client.query` from its initial state (fuel 4 covers
every reachable execution). -/
def queryV2 (env : AttemptEnv) (callback : String → Option GoError)
    (method0 : Method) : Option V2Out :=
  v2Loop env callback 4 0 method0 false false none []

/-- The retry goroutine loop shared by revision 1's `Client.query` and
revision 2's `Client.QueryCallback`: run an attempt; stop on success,
on an exhausted budget (`attempts == c.retryCount`), or when the retry
predicate declines the error; otherwise increment `attempts` and loop.
`budget` is `retryCount - attempts` and `idx` the 0-based attempt
number; the result pairs the value delivered on the channel with the
total number of logical attempts performed. -/
def clientRetryLoop (attempt : Nat → Except GoError α) (cb : GoError → Bool) :
    Nat → Nat → Except GoError α × Nat
  | 0, idx => (attempt idx, idx + 1)
  | budget + 1, idx =>
    match attempt idx with
    | .ok v => (.ok v, idx + 1)
    | .error e =>
      if cb e then clientRetryLoop attempt cb budget (idx + 1) else (.error e, idx + 1)

/-- The whole retry loop of a query with retry budget `retryCount`. -/
def clientQuery (attempt : Nat → Except GoError α) (cb : GoError → Bool)
    (retryCount : Nat) : Except GoError α × Nat :=
  clientRetryLoop attempt cb retryCount 0

/-- Which ready case the Go scheduler picks when several cases of a
`select` statement are ready (the Go specification: a uniform
pseudo-random choice among the ready cases). -/
inductive SelectPick
  | ctxDone
  | chReady
deriving DecidableEq, Repr

/-- The caller-side `select` of revision 1's `Client.query` and
revision 2's `Client.QueryCallback`: wait on `ctx.Done()` versus the
goroutine's channel.  `cancelled` is whether the done channel is
closed, `ready` whether the result channel is closed, `result` the
value the goroutine stored; `none` models a still-blocked select.  When
both channels are ready the chosen branch is the scheduler's `pick`. -/
def querySelect (cancelled ready : Bool) (result : Except GoError α)
    (pick : SelectPick) : Option (Except GoError α) :=
  match cancelled, ready with
  | false, false => none
  | true, false => some (.error .contextCanceled)
  | false, true => some result
  | true, true =>
    match pick with
    | .ctxDone => some (.error .contextCanceled)
    | .chReady => some result

/-- The three construction failures of `NewClient` in `client.go`, in
the order the code checks them; each corresponds to one of the distinct
`fmt.Errorf` messages (negative RetryCount, negative RetryPause, and
the empty-server-list failure reported by `newRoundRobinStrings`). -/
inductive ConfigError
  | negativeRetryCount
  | negativeRetryPause
  | emptyServerList
deriving DecidableEq, Repr

/-- The fields of the constructed `Client` relevant to the claims. -/
structure ClientModel where
  servers : roundRobinStrings
  retryCount : Int
  retryPause : Int

/-- `NewClient` from `client.go`: validation order is RetryCount, then
RetryPause, then the server list (via `newRoundRobinStrings`).
`retryPause` is a `time.Duration`, i.e. a signed integer of
nanoseconds. -/
def NewClient (retryCount retryPause : Int) (servers : List String) :
    Except ConfigError ClientModel :=
  if retryCount < 0 then .error .negativeRetryCount
  else if retryPause < 0 then .error .negativeRetryPause
  else
    match newRoundRobinStrings servers with
    | .error _ => .error .emptyServerList
    | .ok rrs =>
      .ok { servers := rrs, retryCount := retryCount, retryPause := retryPause }

/-- `strings.Split(s, "\n")` from the Go standard library, on the byte
buffer viewed as a list of characters: the components between newline
separators, always at least one component. -/
def splitNL : List Char → List (List Char)
  | [] => [[]]
  | c :: rest =>
    match splitNL rest with
    | [] => [[]]
    | h :: t => if c = '\n' then [] :: h :: t else (c :: h) :: t

/-- The buffer built by `newResponseFromReader` in `response.go` from
the bytes the reader yields (read errors are out of scope): a final
newline is appended when the payload is empty or does not already end
in one. -/
def newResponseBuf (raw : List Char) : List Char :=
  if raw.length = 0 ∨ raw.getLast? ≠ some '\n' then raw ++ ['\n'] else raw

/-- `Response.Bytes` from `response.go`. -/
def responseBytes (buf : List Char) : List Char := buf

/-- `Response.Split` from `response.go`: a one-byte buffer (necessarily
the lone newline) yields no results; otherwise split on newlines and
drop the final (empty) element. -/
def responseSplit (buf : List Char) : List (List Char) :=
  if buf.length = 1 then [] else (splitNL buf).dropLast

/-- Cursor-shift characterisation of the sequence of uncontended `Next`
results: from cursor `i < length`, the `k`-th call returns the value at
index `(i + k) % length`. -/
theorem rrNth_mod (vs : List String) (hne : vs ≠ []) :
    ∀ (k i : Nat), i < vs.length →
      rrNth { values := vs, i := i } k = vs.getD ((i + k) % vs.length) "" := by
  intro k
  induction k with
  | zero =>
    intro i hi
    by_cases h1 : vs.length = 1
    · have hi0 : i = 0 := by omega
      simp [rrNth, rrNext, h1, hi0]
    · simp [rrNth, rrNext, h1, Nat.mod_eq_of_lt hi]
  | succ k ih =>
    intro i hi
    by_cases h1 : vs.length = 1
    · have hi0 : i = 0 := by omega
      have hstate : (rrNext { values := vs, i := i }).2 = { values := vs, i := i } := by
        simp [rrNext, h1]
      simp only [rrNth]
      rw [hstate, ih i hi, h1]
      simp [Nat.mod_one]
    · have hpos : 0 < vs.length := by
        cases vs with
        | nil => exact absurd rfl hne
        | cons a l => simp
      have hstate :
          (rrNext { values := vs, i := i }).2 =
            { values := vs, i := (i + 1) % vs.length } := by
        simp [rrNext, h1]
      have hlt : (i + 1) % vs.length < vs.length := Nat.mod_lt _ hpos
      simp only [rrNth]
      rw [hstate, ih ((i + 1) % vs.length) hlt, Nat.mod_add_mod]
      have harith : i + 1 + k = i + (k + 1) := by omega
      rw [harith]

theorem splitNL_ne_nil (l : List Char) : splitNL l ≠ [] := by
  induction l with
  | nil => simp [splitNL]
  | cons c rest ih =>
    simp only [splitNL]
    split
    · simp
    · split <;> simp

theorem splitNL_length (l : List Char) :
    (splitNL l).length = l.count '\n' + 1 := by
  induction l with
  | nil => simp [splitNL]
  | cons c rest ih =>
    simp only [splitNL]
    cases h : splitNL rest with
    | nil => exact absurd h (splitNL_ne_nil rest)
    | cons hd t =>
      rw [h] at ih
      by_cases hc : c = '\n'
      · subst hc
        simp only [if_pos rfl, List.length_cons, List.count_cons, if_pos rfl] at ih ⊢
        simp at ih ⊢
        omega
      · simp only [if_neg hc, List.length_cons, List.count_cons] at ih ⊢
        simp [hc] at ih ⊢
        omega

/-- Splitting a newline-terminated buffer always ends in the empty
component after the final separator. -/
theorem splitNL_concat_newline (xs : List Char) :
    ∃ ys, splitNL (xs ++ ['\n']) = ys ++ [[]] := by
  induction xs with
  | nil => exact ⟨[[]], rfl⟩
  | cons c rest ih =>
    obtain ⟨ys, hys⟩ := ih
    simp only [List.cons_append, splitNL, hys]
    cases ys with
    | nil =>
      have hlen := splitNL_length (rest ++ ['\n'])
      rw [hys] at hlen
      simp [List.count_append] at hlen
    | cons y ys0 =>
      by_cases hc : c = '\n'
      · exact ⟨[] :: y :: ys0, by simp [hys, hc]⟩
      · exact ⟨(c :: y) :: ys0, by simp [hys, hc]⟩

theorem splitNL_getLast_of_newline (buf : List Char)
    (h : buf.getLast? = some '\n') : (splitNL buf).getLast? = some [] := by
  have hne : buf ≠ [] := by
    intro hn
    rw [hn] at h
    simp at h
  have hlast : buf.getLast hne = '\n' := by
    have heq := List.getLast?_eq_getLast_of_ne_nil hne
    rw [heq] at h
    exact Option.some.inj h
  have hdecomp : buf.dropLast ++ [buf.getLast hne] = buf :=
    List.dropLast_append_getLast hne
  obtain ⟨ys, hys⟩ := splitNL_concat_newline buf.dropLast
  rw [← hdecomp, hlast, hys, List.getLast?_concat]

/-- When every attempt fails and the predicate always retries, the loop
consumes its whole budget and surfaces the error of the final
attempt. -/
theorem clientRetryLoop_allFail (attempt : Nat → Except GoError String)
    (errs : Nat → GoError) (cb : GoError → Bool)
    (hfail : ∀ i, attempt i = .error (errs i)) (hcb : ∀ e, cb e = true) :
    ∀ (budget idx : Nat),
      clientRetryLoop attempt cb budget idx =
        (.error (errs (idx + budget)), idx + budget + 1) := by
  intro budget
  induction budget with
  | zero =>
    intro idx
    simp [clientRetryLoop, hfail idx]
  | succ b ih =>
    intro idx
    simp only [clientRetryLoop, hfail idx, hcb (errs idx), if_true]
    rw [ih (idx + 1)]
    have h1 : idx + 1 + b = idx + (b + 1) := by omega
    rw [h1]

/-- Claim C4: for every server list of length N at least 1, N
uncontended calls to the selector return all N configured addresses in
order starting from the first, the call after that returns the first
address again, and a single-address pool always returns that
address. -/
theorem orange_c4_selector_rotation (vs : List String) (hne : vs ≠ []) :
    (∀ k, k < vs.length → rrNth { values := vs, i := 0 } k = vs.getD k "") ∧
    rrNth { values := vs, i := 0 } vs.length = vs.getD 0 "" ∧
    (vs.length = 1 → ∀ k, rrNth { values := vs, i := 0 } k = vs.getD 0 "") := by
  have hpos : 0 < vs.length := List.length_pos.mpr hne
  refine ⟨?_, ?_, ?_⟩
  · intro k hk
    rw [rrNth_mod vs hne k 0 hpos]
    simp [Nat.mod_eq_of_lt hk]
  · rw [rrNth_mod vs hne vs.length 0 hpos]
    simp
  · intro h1 k
    rw [rrNth_mod vs hne k 0 hpos, h1]
    simp [Nat.mod_one]

/-- Witness for C4 at the three-address pool: the second call returns
the second address and the fourth call wraps to the first. -/
theorem orange_c4_witness :
    rrNth { values := ["a", "b", "c"], i := 0 } 1 = "b" ∧
    rrNth { values := ["a", "b", "c"], i := 0 } 3 = "a" := by
  have h := orange_c4_selector_rotation ["a", "b", "c"] (by simp)
  exact ⟨h.1 1 (by simp), h.2.1⟩

/-- Claim C5: constructing a client with an empty server list fails
with the empty-pool error, a negative retry count or retry pause fails
with the respective invalid-retry-configuration error, and in every
such case NewClient returns an error and no client. -/
theorem orange_c5_construction_validation (rc rp : Int) (servers : List String) :
    (rc < 0 → NewClient rc rp servers = .error .negativeRetryCount) ∧
    (0 ≤ rc → rp < 0 → NewClient rc rp servers = .error .negativeRetryPause) ∧
    (0 ≤ rc → 0 ≤ rp → servers = [] →
      NewClient rc rp servers = .error .emptyServerList) ∧
    ((rc < 0 ∨ rp < 0 ∨ servers = []) →
      ∀ cm, NewClient rc rp servers ≠ .ok cm) := by
  refine ⟨?_, ?_, ?_, ?_⟩
  · intro h
    simp [NewClient, h]
  · intro h0 h1
    simp [NewClient, show ¬rc < 0 by omega, h1]
  · intro h0 h1 h2
    subst h2
    simp [NewClient, newRoundRobinStrings, show ¬rc < 0 by omega,
      show ¬rp < 0 by omega]
  · intro h cm
    rcases h with h | h | h
    · simp [NewClient, h]
    · by_cases h0 : rc < 0
      · simp [NewClient, h0]
      · simp [NewClient, h0, h]
    · subst h
      by_cases h0 : rc < 0
      · simp [NewClient, h0]
      · by_cases h1 : rp < 0
        · simp [NewClient, h0, h1]
        · simp [NewClient, newRoundRobinStrings, h0, h1]

/-- Witness for C5: each invalid configuration at a concrete input. -/
theorem orange_c5_witness :
    NewClient 0 0 [] = .error .emptyServerList ∧
    NewClient (-1) 0 ["s"] = .error .negativeRetryCount ∧
    NewClient 0 (-5) ["s"] = .error .negativeRetryPause :=
  ⟨(orange_c5_construction_validation 0 0 []).2.2.1 (by norm_num) (by norm_num) rfl,
   (orange_c5_construction_validation (-1) 0 ["s"]).1 (by norm_num),
   (orange_c5_construction_validation 0 (-5) ["s"]).2.1 (by norm_num) (by norm_num)⟩

/-- Claim C6: with a retry budget of 2 and a predicate approving every
error, a query whose attempts all fail performs exactly 3 logical
attempts (1 initial + 2 retries) and returns the error of the final
attempt. -/
theorem orange_c6_three_attempts (attempt : Nat → Except GoError String)
    (errs : Nat → GoError) (cb : GoError → Bool)
    (hfail : ∀ i, attempt i = .error (errs i)) (hcb : ∀ e, cb e = true) :
    clientQuery attempt cb 2 = (.error (errs 2), 3) := by
  have h := clientRetryLoop_allFail attempt errs cb hfail hcb 2 0
  simpa [clientQuery] using h

/-- Witness for C6 with a concrete always-failing attempt function. -/
theorem orange_c6_witness :
    clientQuery
      (fun i => (.error (.statusNotOK "" "boom" i) : Except GoError String))
      (fun _ => true) 2 = (.error (.statusNotOK "" "boom" 2), 3) := by
  exact orange_c6_three_attempts _ (fun i => .statusNotOK "" "boom" i) _
    (fun _ => rfl) (fun _ => rfl)

/-- Claim C7: the default retry predicate returns true exactly for
errors reporting themselves temporary or timed out, plus DNS-chain
failures when more than one server is configured; status errors and
range-exception errors always get false. -/
theorem orange_c7_default_retry_predicate (count : Nat) (e : GoError) :
    (makeRetryCallback count e = true ↔
      (isTemporary e = true ∨ isTimeout e = true ∨
        (isDNSChain e = true ∧ 1 < count))) ∧
    (∀ b s c, makeRetryCallback count (.statusNotOK b s c) = false) ∧
    (∀ b m, makeRetryCallback count (.rangeException b m) = false) ∧
    (∀ m t tm, makeRetryCallback count (.transport m t tm true) =
      (t || tm || decide (1 < count))) := by
  refine ⟨?_, ?_, ?_, ?_⟩
  · cases e with
    | transport m t tm d =>
      cases t <;> cases tm <;> cases d <;>
        simp [makeRetryCallback, isTemporary, isTimeout, isDNSChain]
    | rangeException b msg =>
      simp [makeRetryCallback, isTemporary, isTimeout, isDNSChain]
    | statusNotOK b s c =>
      simp [makeRetryCallback, isTemporary, isTimeout, isDNSChain]
    | requestConstruction m =>
      simp [makeRetryCallback, isTemporary, isTimeout, isDNSChain]
    | contextCanceled =>
      simp [makeRetryCallback, isTemporary, isTimeout, isDNSChain]
  · intro b s c
    simp [makeRetryCallback, isTemporary, isTimeout, isDNSChain]
  · intro b m
    simp [makeRetryCallback, isTemporary, isTimeout, isDNSChain]
  · intro m t tm
    cases t <;> cases tm <;>
      simp [makeRetryCallback, isTemporary, isTimeout, isDNSChain]

/-- Witness for C7: concrete evaluations of the default predicate. -/
theorem orange_c7_witness :
    makeRetryCallback 1 (.statusNotOK "" "400 Bad Request" 400) = false ∧
    makeRetryCallback 2 (.transport "no such host" false false true) = true ∧
    makeRetryCallback 1 (.transport "no such host" false false true) = false :=
  ⟨(orange_c7_default_retry_predicate 1 (.statusNotOK "" "400 Bad Request" 400)).2.1
      "" "400 Bad Request" 400,
   by
    have h := (orange_c7_default_retry_predicate 2
      (.transport "no such host" false false true)).1
    exact h.mpr (Or.inr (Or.inr ⟨rfl, by norm_num⟩)),
   by
    have h := (orange_c7_default_retry_predicate 1
      (.transport "no such host" false false true)).2.2.2 "no such host" false false
    simpa using h⟩

/-- Claim C1 fails as stated: when the done channel and the result
channel are both ready (the context was cancelled just as a successful
attempt completed), the select of Client.query / Client.QueryCallback
may pick the result branch and deliver the stale success to the
caller. -/
theorem orange_c1_counterexample :
    querySelect true true (Except.ok "result") SelectPick.chReady =
      some (Except.ok "result") := rfl

/-- Claim C1, amended: once the context is cancelled, the caller gets
the cancellation error whenever the result channel is not yet ready;
when both channels are ready the select chooses nondeterministically,
so a success can only be delivered if the result was ready and either
the context was not cancelled or the scheduler picked the result
branch. -/
theorem orange_c1_amended :
    (∀ (res : Except GoError String) (pick : SelectPick),
      querySelect true false res pick = some (.error .contextCanceled)) ∧
    (∀ (res : Except GoError String) (pick : SelectPick),
      querySelect false true res pick = some res) ∧
    (∀ (cancelled ready : Bool) (res : Except GoError String)
      (pick : SelectPick) (v : String),
      querySelect cancelled ready res pick = some (.ok v) →
        ready = true ∧ (cancelled = false ∨ pick = .chReady)) := by
  refine ⟨fun _ _ => rfl, fun _ _ => rfl, ?_⟩
  intro cancelled ready res pick v h
  cases cancelled <;> cases ready <;> cases pick <;> simp_all [querySelect]

/-- Witness for C1 (amended): a delivered success at a concrete input
implies the result channel was ready. -/
theorem orange_c1_witness :
    (true = true ∧ (true = false ∨ SelectPick.chReady = SelectPick.chReady)) :=
  orange_c1_amended.2.2 true true (.ok "x") .chReady "x" rfl

/-- Claim C8: a 200 response with a non-empty RangeException header m
makes the attempt return ErrRangeException with message exactly m,
whatever the body is (the body is free in the hypotheses and absent
from the conclusion), and its textual form is the prefixed message,
body excluded. -/
theorem orange_c8_range_exception (env : AttemptEnv) (m0 : Method)
    (r : HttpResponse) (msg : String)
    (hc : env.cancelledAt 0 = false)
    (hreq : env.newRequestFails 0 m0 = none)
    (ht : env.transport 0 m0 = .response r)
    (hst : r.statusCode = 200) (hex : r.rangeException = msg) (hne : msg ≠ "") :
    queryServerV1 env m0 = (.error (.rangeException "" msg), [m0]) ∧
    goErrorString (.rangeException "" msg) = "RangeException: " ++ msg := by
  constructor
  · simp [queryServerV1, v1Iter, hc, hreq, ht, hst, hex, hne]
  · rfl

/-- Witness for C8: a concrete 200 response carrying
RangeException boom and an unrelated body. -/
theorem orange_c8_witness :
    queryServerV1
      { cancelledAt := fun _ => false,
        newRequestFails := fun _ _ => none,
        transport := fun _ _ => .response ⟨200, "200 OK", "boom", "bodytext"⟩ }
      .get = (.error (.rangeException "" "boom"), [.get]) :=
  (orange_c8_range_exception _ .get ⟨200, "200 OK", "boom", "bodytext"⟩ "boom"
    rfl rfl rfl rfl rfl (by decide)).1

/-- Claim C9: when the transport Do call itself fails, both revisions
of the attempt executor return that error immediately: the one issued
request is the only physical request and no method fallback occurs. -/
theorem orange_c9_transport_error (env : AttemptEnv) (m0 : Method)
    (e : GoError) (callback : String → Option GoError)
    (hc : env.cancelledAt 0 = false)
    (hreq : env.newRequestFails 0 m0 = none)
    (ht : env.transport 0 m0 = .failure e) :
    queryServerV1 env m0 = (.error e, [m0]) ∧
    queryV2 env callback m0 =
      some { returned := some e, callbackBody := none, requests := [m0] } := by
  constructor
  · simp [queryServerV1, v1Iter, hc, hreq, ht]
  · cases m0 <;> simp [queryV2, v2Loop, hreq, ht]

/-- Witness for C9 at a concrete refused connection. -/
theorem orange_c9_witness :
    queryServerV1
      { cancelledAt := fun _ => false,
        newRequestFails := fun _ _ => none,
        transport := fun _ _ =>
          .failure (.transport "connection refused" false false false) }
      .get
      = (.error (.transport "connection refused" false false false), [.get]) :=
  (orange_c9_transport_error _ .get _ (fun _ => none) rfl rfl rfl).1

/-- Claim C2 names a real bug: on a 400 response with body oops,
revision 2 of Client.query returns ErrStatusNotOK whose Status field
(documented in error.go as the canonical HTTP status message) holds the
body text, whose Body field (documented as holding the response body)
stays empty, and whose Error() form is therefore exactly the body
text — the claim and the error type documentation say the body is
captured for diagnostics and excluded from the textual message. -/
theorem orange_c2_body_in_error_message :
    queryV2
      { cancelledAt := fun _ => false,
        newRequestFails := fun _ _ => none,
        transport := fun _ _ => .response ⟨400, "400 Bad Request", "", "oops"⟩ }
      (fun _ => none) .get =
      some { returned := some (.statusNotOK "" "oops" 400),
             callbackBody := none, requests := [.get] } ∧
    goErrorString (.statusNotOK "" "oops" 400) = "oops" := by
  exact ⟨rfl, rfl⟩

/-- Claim C3 fails as stated: a server answering GET with 405 makes
revision 1 of queryServer retry with GET again, so one method is
attempted twice within a logical attempt (and no PUT is ever sent). -/
theorem orange_c3_counterexample :
    (queryServerV1
      { cancelledAt := fun _ => false,
        newRequestFails := fun _ _ => none,
        transport := fun _ _ =>
          .response ⟨405, "405 Method Not Allowed", "", ""⟩ }
      .get).2 = [.get, .get] := rfl

/-- Claim C3, amended: at most 2 physical requests per logical attempt
(never 3); a 414 answer to an initial GET is followed by exactly one
PUT, a 405 answer to an initial PUT by exactly one GET, and when the
second response is again non-200 the attempt surfaces that last status
error; however a 405 to a GET (or 414 to a PUT) re-tries the same
method, so one method may be attempted twice. -/
theorem orange_c3_amended :
    (∀ (env : AttemptEnv) (m0 : Method),
      (queryServerV1 env m0).2.length ≤ 2) ∧
    (∀ (env : AttemptEnv) (r0 : HttpResponse),
      env.cancelledAt 0 = false → env.cancelledAt 1 = false →
      env.newRequestFails 0 .get = none → env.newRequestFails 1 .put = none →
      env.transport 0 .get = .response r0 → r0.statusCode = 414 →
      (queryServerV1 env .get).2 = [.get, .put]) ∧
    (∀ (env : AttemptEnv) (r0 : HttpResponse),
      env.cancelledAt 0 = false → env.cancelledAt 1 = false →
      env.newRequestFails 0 .put = none → env.newRequestFails 1 .get = none →
      env.transport 0 .put = .response r0 → r0.statusCode = 405 →
      (queryServerV1 env .put).2 = [.put, .get]) ∧
    (∀ (env : AttemptEnv) (r0 r1 : HttpResponse),
      env.cancelledAt 0 = false → env.cancelledAt 1 = false →
      env.newRequestFails 0 .get = none → env.newRequestFails 1 .put = none →
      env.transport 0 .get = .response r0 → r0.statusCode = 414 →
      env.transport 1 .put = .response r1 → r1.statusCode ≠ 200 →
      (queryServerV1 env .get).1 =
        .error (.statusNotOK "" r1.status r1.statusCode)) := by
  refine ⟨?_, ?_, ?_, ?_⟩
  · intro env m0
    simp only [queryServerV1]
    cases h0 : v1Iter (env.cancelledAt 0) (env.newRequestFails 0)
        (env.transport 0) m0 none with
    | done r req => cases req <;> simp
    | next m1 e1 req0 =>
      cases h1 : v1Iter (env.cancelledAt 1) (env.newRequestFails 1)
          (env.transport 1) m1 e1 with
      | done r req1 => cases req0 <;> cases req1 <;> simp [h1]
      | next m2 e2 req1 => cases req0 <;> cases req1 <;> simp [h1]
  · intro env r0 hc0 hc1 hn0 hn1 ht0 hs0
    have h0 : v1Iter (env.cancelledAt 0) (env.newRequestFails 0)
        (env.transport 0) .get none =
        .next .put (some (.statusNotOK "" r0.status 414)) (some .get) := by
      simp [v1Iter, hc0, hn0, ht0, hs0]
    simp only [queryServerV1, h0]
    rcases htr : env.transport 1 .put with e | r1
    · simp [v1Iter, hc1, hn1, htr]
    · by_cases h200 : r1.statusCode = 200
      · by_cases hre : r1.rangeException = ""
        · simp [v1Iter, hc1, hn1, htr, h200, hre]
        · simp [v1Iter, hc1, hn1, htr, h200, hre]
      · simp [v1Iter, hc1, hn1, htr, h200]
  · intro env r0 hc0 hc1 hn0 hn1 ht0 hs0
    have h0 : v1Iter (env.cancelledAt 0) (env.newRequestFails 0)
        (env.transport 0) .put none =
        .next .get (some (.statusNotOK "" r0.status 405)) (some .put) := by
      simp [v1Iter, hc0, hn0, ht0, hs0]
    simp only [queryServerV1, h0]
    rcases htr : env.transport 1 .get with e | r1
    · simp [v1Iter, hc1, hn1, htr]
    · by_cases h200 : r1.statusCode = 200
      · by_cases hre : r1.rangeException = ""
        · simp [v1Iter, hc1, hn1, htr, h200, hre]
        · simp [v1Iter, hc1, hn1, htr, h200, hre]
      · simp [v1Iter, hc1, hn1, htr, h200]
  · intro env r0 r1 hc0 hc1 hn0 hn1 ht0 hs0 ht1 h200
    have h0 : v1Iter (env.cancelledAt 0) (env.newRequestFails 0)
        (env.transport 0) .get none =
        .next .put (some (.statusNotOK "" r0.status 414)) (some .get) := by
      simp [v1Iter, hc0, hn0, ht0, hs0]
    simp only [queryServerV1, h0]
    simp [v1Iter, hc1, hn1, ht1, h200]

/-- Witness for C3 (amended): a concrete 414-to-GET server followed by
a successful PUT issues exactly the two requests GET then PUT. -/
theorem orange_c3_witness :
    (queryServerV1
      { cancelledAt := fun _ => false,
        newRequestFails := fun _ _ => none,
        transport := fun _ m =>
          match m with
          | .get => .response ⟨414, "414 Request-URI Too Long", "", ""⟩
          | .put => .response ⟨200, "200 OK", "", "result1"⟩ }
      .get).2 = [.get, .put] :=
  orange_c3_amended.2.1 _ ⟨414, "414 Request-URI Too Long", "", ""⟩
    rfl rfl rfl rfl rfl rfl

/-- Claim C10 fails as stated: the payload consisting of the byte a
followed by two newlines produces, after splitting, the components a
and the empty component — a trailing empty element. -/
theorem orange_c10_counterexample :
    responseSplit (newResponseBuf ['a', '\n', '\n']) = [['a'], []] ∧
    (responseSplit (newResponseBuf ['a', '\n', '\n'])).getLast? =
      some ([] : List Char) := ⟨rfl, rfl⟩

/-- Claim C10, amended: the buffer is non-empty and newline-terminated,
a newline being appended exactly when the raw payload lacks one, and
Split always drops the final component of the newline-split (the empty
component after the terminating newline); empty elements produced by
consecutive newlines inside the payload, including a trailing one, may
remain. -/
theorem orange_c10_amended (raw : List Char) :
    newResponseBuf raw ≠ [] ∧
    (newResponseBuf raw).getLast? = some '\n' ∧
    (raw.getLast? = some '\n' → newResponseBuf raw = raw) ∧
    (raw.getLast? ≠ some '\n' → newResponseBuf raw = raw ++ ['\n']) ∧
    (splitNL (newResponseBuf raw)).getLast? = some [] ∧
    (responseSplit (newResponseBuf raw)).length <
      (splitNL (newResponseBuf raw)).length := by
  have h3 : raw.getLast? = some '\n' → newResponseBuf raw = raw := by
    intro hg
    have hne : raw ≠ [] := by
      intro hnil
      rw [hnil] at hg
      simp at hg
    have hlen : raw.length ≠ 0 := by
      have := List.length_pos.mpr hne
      omega
    have hcond : ¬(raw.length = 0 ∨ raw.getLast? ≠ some '\n') := by
      push_neg
      exact ⟨hlen, hg⟩
    rw [newResponseBuf, if_neg hcond]
  have h4 : raw.getLast? ≠ some '\n' → newResponseBuf raw = raw ++ ['\n'] := by
    intro hg
    simp [newResponseBuf, hg]
  have h2 : (newResponseBuf raw).getLast? = some '\n' := by
    by_cases hg : raw.getLast? = some '\n'
    · rw [h3 hg]
      exact hg
    · rw [h4 hg]
      exact List.getLast?_concat _
  have h1 : newResponseBuf raw ≠ [] := by
    intro hnil
    rw [hnil] at h2
    simp at h2
  have h5 : (splitNL (newResponseBuf raw)).getLast? = some [] :=
    splitNL_getLast_of_newline _ h2
  have h6 : (responseSplit (newResponseBuf raw)).length <
      (splitNL (newResponseBuf raw)).length := by
    have hpos : 0 < (splitNL (newResponseBuf raw)).length :=
      List.length_pos.mpr (splitNL_ne_nil _)
    unfold responseSplit
    split
    · simpa using hpos
    · rw [List.length_dropLast]
      omega
  exact ⟨h1, h2, h3, h4, h5, h6⟩

/-- Witness for C10 (amended): a newline is appended to the payload a
and the split of the resulting buffer ends in the empty component that
Split drops. -/
theorem orange_c10_witness :
    newResponseBuf ['a'] = ['a', '\n'] ∧
    (splitNL (newResponseBuf ['a'])).getLast? = some [] :=
  ⟨(orange_c10_amended ['a']).2.2.2.1 (by decide),
   (orange_c10_amended ['a']).2.2.2.2.1⟩

end Orange
